import Mathlib

/-!
Verification development for the Smart-Gateway repository.

The repository contains three Python services:
* `src/auth-service/auth_service.py` — a Flask forward-auth gateway (`/verify`)
  that introspects bearer tokens against Keycloak;
* `src/mcp-calculator-server/calculator_server.py` — a FastAPI JSON-RPC 2.0
  resource server exposing calculator tools;
* `src/mcp-weather-server/weather_server.py` — a FastAPI JSON-RPC 2.0
  resource server exposing weather tools.

This file gives a shallow embedding of the request-level logic of those
services (pure functions over explicit inputs; the HTTP layer, the outbound
introspection call and wall-clock reads become explicit parameters), and
proves or refutes the specification claims against that embedding.
Python floats are modelled by rationals; float formatting, `math.pow`,
`math.sqrt` and `datetime.now` are abstracted as parameters since no claim
depends on their values.
-/

namespace SmartGateway

/-- `strContains s pat` holds when `pat` occurs as a contiguous substring of
`s` (stated on the underlying character lists). -/
def strContains (s pat : String) : Prop :=
  pat.data <:+: s.data

instance instDecidableStrContains (s pat : String) : Decidable (strContains s pat) :=
  List.decidableInfix pat.data s.data

/-! ## Auth service (`auth_service.py`) -/

namespace Auth

/-- Environment-derived Keycloak configuration: `KEYCLOAK_URL` and
`KEYCLOAK_REALM` (defaults `http://keycloak:8080` and `mcp-gateway`). -/
structure GatewayConfig where
  keycloakUrl : String
  realm : String
deriving DecidableEq

/-- The nested `realm_access` claim of an introspection result; its `roles`
key may be absent (`token_info.get("realm_access", {}).get("roles", [])`). -/
structure RealmAccess where
  roles : Option (List String)
deriving DecidableEq

/-- The JSON dictionary returned by Keycloak token introspection, restricted
to the keys `verify_token` reads; every key may be absent. -/
structure TokenInfo where
  active : Option Bool
  sub : Option String
  email : Option String
  realm_access : Option RealmAccess
  scope : Option String
deriving DecidableEq

/-- The JSON body of a `/verify` response: `{"status": "ok"}` on success, or
`{"error": "unauthorized", "error_description": ..., "authorization_uri": ...,
"discovery_uri": ...}` on rejection. -/
inductive VerifyBody where
  | ok
  | unauthorized (error_description authorization_uri discovery_uri : String)
deriving DecidableEq

/-- Observable outcome of one `/verify` request: HTTP status, JSON body, the
`WWW-Authenticate` header, the four identity headers, and — for stating that
introspection was or was not consulted — the token string sent to the
Introspection Client (`none` when introspection was never called). -/
structure VerifyResult where
  status : Nat
  body : VerifyBody
  wwwAuthenticate : Option String
  xUserSub : Option String
  xUserEmail : Option String
  xUserRoles : Option String
  xUserScopes : Option String
  introspectedWith : Option String
deriving DecidableEq

/-- `auth_url` as built in `verify_token`. -/
def auth_url (cfg : GatewayConfig) : String :=
  cfg.keycloakUrl ++ "/realms/" ++ cfg.realm ++ "/protocol/openid-connect/auth"

/-- `discovery_url` as built in `verify_token`. -/
def discovery_url (cfg : GatewayConfig) : String :=
  cfg.keycloakUrl ++ "/realms/" ++ cfg.realm ++ "/.well-known/openid-configuration"

/-- The `WWW-Authenticate` header value built by `verify_token`; the realm is
the hard-coded literal `mcp-gateway` and `desc` is the `error_description`
written into the header (a fixed literal at both call sites). -/
def wwwAuthHeader (desc au du : String) : String :=
  "Bearer realm=\"mcp-gateway\", error=\"invalid_token\", error_description=\"" ++ desc ++
    "\", authorization_uri=\"" ++ au ++ "\", discovery_uri=\"" ++ du ++ "\""

/-- Python `s.startswith(p)`, modelled on the underlying character lists. -/
def startswith (s p : String) : Bool :=
  p.data.isPrefixOf s.data

/-- Shallow embedding of `verify_token` (`auth_service.py` lines 78-151).
`introspect` is the Introspection Client: `.error e` models any exception
raised by `introspect_token` (network failure, non-2xx, unparsable JSON) with
`e` the Python `str(e)`; `.ok info` models a parsed introspection dictionary.
`authHeader` is `none` when the `Authorization` header is absent
(`request.headers.get("Authorization", "")`). The `ValueError("Token is not
active")` raised for inactive tokens is caught by the same `except` block as
introspection failures, so both produce the same response shape. -/
def verify_token (cfg : GatewayConfig) (introspect : String → Except String TokenInfo)
    (authHeader : Option String) : VerifyResult :=
  let auth_header := authHeader.getD ""
  if !(startswith auth_header "Bearer ") then
    { status := 401
      body := .unauthorized "Bearer token required" (auth_url cfg) (discovery_url cfg)
      wwwAuthenticate := some (wwwAuthHeader "Bearer token required" (auth_url cfg) (discovery_url cfg))
      xUserSub := none
      xUserEmail := none
      xUserRoles := none
      xUserScopes := none
      introspectedWith := none }
  else
    let token := auth_header.drop 7
    match introspect token with
    | .error e =>
      { status := 401
        body := .unauthorized e (auth_url cfg) (discovery_url cfg)
        wwwAuthenticate := some (wwwAuthHeader "Token validation failed" (auth_url cfg) (discovery_url cfg))
        xUserSub := none
        xUserEmail := none
        xUserRoles := none
        xUserScopes := none
        introspectedWith := some token }
    | .ok token_info =>
      if token_info.active.getD false then
        { status := 200
          body := .ok
          wwwAuthenticate := none
          xUserSub := some (token_info.sub.getD "")
          xUserEmail := some (token_info.email.getD "")
          xUserRoles := some (String.intercalate "," (((token_info.realm_access.getD ⟨none⟩).roles).getD []))
          xUserScopes := some (token_info.scope.getD "")
          introspectedWith := some token }
      else
        { status := 401
          body := .unauthorized "Token is not active" (auth_url cfg) (discovery_url cfg)
          wwwAuthenticate := some (wwwAuthHeader "Token validation failed" (auth_url cfg) (discovery_url cfg))
          xUserSub := none
          xUserEmail := none
          xUserRoles := none
          xUserScopes := none
          introspectedWith := some token }

end Auth

/-! ## Shared JSON-RPC shapes (both resource servers) -/

/-- JSON-RPC request/response ids: `id: int | str` in the pydantic model. -/
inductive RpcId where
  | num (n : Int)
  | str (s : String)
deriving DecidableEq

/-- The parts of the `params` dictionary read by the dispatchers:
`params.get("name")` and `params.get("arguments", {})`. `α` is the type of
argument values (rationals for the calculator, strings for the weather
server). -/
structure RpcParams (α : Type) where
  name : Option String := none
  arguments : List (String × α) := []
deriving DecidableEq

/-- The pydantic `JsonRpcRequest` model: `{jsonrpc: "2.0", id, method,
params}`. `jsonrpc` is defaulted and never validated. -/
structure RpcRequest (α : Type) where
  jsonrpc : String := "2.0"
  id : RpcId
  method : String
  params : RpcParams α := {}
deriving DecidableEq

/-- One property of a tool's JSON `inputSchema`. -/
structure SchemaProperty where
  name : String
  type : String
  description : String
  default : Option String := none
deriving DecidableEq

/-- A tool's `inputSchema` value. -/
structure InputSchema where
  type : String
  properties : List SchemaProperty
  required : List String := []
deriving DecidableEq

/-- One entry of the module-level `MCP_TOOLS` registry. -/
structure ToolDescriptor where
  name : String
  description : String
  inputSchema : InputSchema
deriving DecidableEq

/-- A JSON-RPC error object `{code, message, data}`. -/
structure RpcError where
  code : Int
  message : String
  data : String
deriving DecidableEq

/-- The `user` metadata attached to successful `tools/call` results. -/
structure UserMeta where
  sub : String
  email : String
deriving DecidableEq

/-- The possible `result` payloads produced by the dispatchers:
`tools/list` listings, `tools/call` text content, and `initialize`
capability envelopes. -/
inductive RpcResult where
  | tools (ts : List ToolDescriptor)
  | content (text : String) (user : UserMeta)
  | initialized (protocolVersion serverName serverVersion : String)
deriving DecidableEq

/-- A JSON-RPC response envelope; `id := none` models JSON `null`. -/
structure RpcResponse where
  jsonrpc : String := "2.0"
  id : Option RpcId
  result : Option RpcResult := none
  error : Option RpcError := none
deriving DecidableEq

/-- A dispatcher outcome: HTTP status plus the JSON-RPC envelope. -/
structure HttpRpcResponse where
  status : Nat
  response : RpcResponse
deriving DecidableEq

/-- Models the Python rendering `f"{tool_name}"` of the optional
`params.get("name")` value (`None` prints as `"None"`). -/
def pyOptStr : Option String → String
  | some s => s
  | none => "None"

/-- Outcome of one HTTP dispatch, including the unhandled-exception path:
`rpc` is a JSON-RPC envelope built by the handler; `serverError` models an
exception raised outside the handler's `try`/`except` (FastAPI surfaces it
as HTTP 500 Internal Server Error, with no JSON-RPC envelope). -/
inductive HttpOutcome where
  | rpc (status : Nat) (response : RpcResponse)
  | serverError
deriving DecidableEq

/-- HTTP status of an `HttpOutcome` (an unhandled exception is 500). -/
def HttpOutcome.status : HttpOutcome → Nat
  | .rpc s _ => s
  | .serverError => 500

/-- The raw JSON value in the `arguments` position of `params`: pydantic
validates only that `params` is a dict, so `arguments` may be a dictionary
(`dict`) or any non-dictionary JSON value (`other`), on which every later
`arguments.get(...)` raises `AttributeError`. `ν` is the type modelling the
dictionary's values. -/
inductive ArgsJson (ν : Type) where
  | dict (entries : List (String × ν))
  | other
deriving DecidableEq

/-- The parts of the unvalidated `params` dictionary read by the
dispatchers, with raw JSON argument values; `arguments := .dict []` also
covers an absent key (`params.get("arguments", {})`). -/
structure RpcParamsJson (ν : Type) where
  name : Option String := none
  arguments : ArgsJson ν := .dict []
deriving DecidableEq

/-- The pydantic `JsonRpcRequest` model with raw JSON argument values:
pydantic checks `jsonrpc`/`id`/`method`/`params` types only, never the
contents of `params`. -/
structure RpcRequestJson (ν : Type) where
  jsonrpc : String := "2.0"
  id : RpcId
  method : String
  params : RpcParamsJson ν := {}
deriving DecidableEq

/-! ## Calculator server (`calculator_server.py`) -/

namespace Calculator

/-- Abstracted numeric environment for the calculator handlers: Python float
formatting (`f"{x}"`), `math.pow`, `math.sqrt`, and the
`datetime.now().strftime('%Y-%m-%d %H:%M:%S')` timestamp. -/
structure NumEnv where
  fmt : ℚ → String
  pow : ℚ → ℚ → ℚ
  sqrt : ℚ → ℚ
  now : String

/-- `get_user_scopes` (lines 48-52): split the header on single spaces
(Python `x_user_scopes.split(" ")`, modelled on the character lists), or the
demo default `["calculator:read"]` when the header string is empty/falsy. -/
def get_user_scopes (x_user_scopes : String) : List String :=
  if x_user_scopes ≠ "" then (x_user_scopes.data.splitOn ' ').map List.asString
  else ["calculator:read"]

/-- `check_scope` (lines 55-60): exact membership, with the enumerated
aliases `calculator-scope` and `openid` accepted for `calculator:read`. -/
def check_scope (scopes : List String) (required_scope : String) : Bool :=
  if required_scope = "calculator:read" then
    scopes.contains "calculator:read" || scopes.contains "calculator-scope" ||
      scopes.contains "openid"
  else
    scopes.contains required_scope

/-- `calculate_add` (lines 63-72). -/
def calculate_add (env : NumEnv) (a b : ℚ) : String :=
  "\n🧮 Calcul: Addition\n━━━━━━━━━━━━━━━━━━━━━━━━━━━━━━━━━━\n📊 Opération: " ++
    env.fmt a ++ " + " ++ env.fmt b ++ "\n✅ Résultat: " ++ env.fmt (a + b) ++
    "\n📅 Calculé le: " ++ env.now ++ "\n"

/-- `calculate_subtract` (lines 75-84). -/
def calculate_subtract (env : NumEnv) (a b : ℚ) : String :=
  "\n🧮 Calcul: Soustraction\n━━━━━━━━━━━━━━━━━━━━━━━━━━━━━━━━━━\n📊 Opération: " ++
    env.fmt a ++ " - " ++ env.fmt b ++ "\n✅ Résultat: " ++ env.fmt (a - b) ++
    "\n📅 Calculé le: " ++ env.now ++ "\n"

/-- `calculate_multiply` (lines 87-96). -/
def calculate_multiply (env : NumEnv) (a b : ℚ) : String :=
  "\n🧮 Calcul: Multiplication\n━━━━━━━━━━━━━━━━━━━━━━━━━━━━━━━━━━\n📊 Opération: " ++
    env.fmt a ++ " × " ++ env.fmt b ++ "\n✅ Résultat: " ++ env.fmt (a * b) ++
    "\n📅 Calculé le: " ++ env.now ++ "\n"

/-- `calculate_divide` (lines 99-116): division by zero is reported inside
the returned text, never raised. -/
def calculate_divide (env : NumEnv) (a b : ℚ) : String :=
  if b = 0 then
    "\n🧮 Calcul: Division\n━━━━━━━━━━━━━━━━━━━━━━━━━━━━━━━━━━\n📊 Opération: " ++
      env.fmt a ++ " ÷ " ++ env.fmt b ++
      "\n❌ Erreur: Division par zéro impossible!\n📅 Calculé le: " ++ env.now ++ "\n"
  else
    "\n🧮 Calcul: Division\n━━━━━━━━━━━━━━━━━━━━━━━━━━━━━━━━━━\n📊 Opération: " ++
      env.fmt a ++ " ÷ " ++ env.fmt b ++ "\n✅ Résultat: " ++ env.fmt (a / b) ++
      "\n📅 Calculé le: " ++ env.now ++ "\n"

/-- `calculate_power` (lines 119-128). -/
def calculate_power (env : NumEnv) (base exponent : ℚ) : String :=
  "\n🧮 Calcul: Puissance\n━━━━━━━━━━━━━━━━━━━━━━━━━━━━━━━━━━\n📊 Opération: " ++
    env.fmt base ++ "^" ++ env.fmt exponent ++ "\n✅ Résultat: " ++
    env.fmt (env.pow base exponent) ++ "\n📅 Calculé le: " ++ env.now ++ "\n"

/-- `calculate_sqrt` (lines 131-148): a negative input is reported inside the
returned text, never raised. -/
def calculate_sqrt (env : NumEnv) (number : ℚ) : String :=
  if number < 0 then
    "\n🧮 Calcul: Racine Carrée\n━━━━━━━━━━━━━━━━━━━━━━━━━━━━━━━━━━\n📊 Opération: √" ++
      env.fmt number ++
      "\n❌ Erreur: Racine carrée d\u0027un nombre négatif impossible!\n📅 Calculé le: " ++
      env.now ++ "\n"
  else
    "\n🧮 Calcul: Racine Carrée\n━━━━━━━━━━━━━━━━━━━━━━━━━━━━━━━━━━\n📊 Opération: √" ++
      env.fmt number ++ "\n✅ Résultat: " ++ env.fmt (env.sqrt number) ++
      "\n📅 Calculé le: " ++ env.now ++ "\n"

/-- The module-level `MCP_TOOLS` registry (lines 155-260), in source order. -/
def MCP_TOOLS : List ToolDescriptor :=
  [ { name := "add"
      description := "Add two numbers together (a + b)"
      inputSchema :=
        { type := "object"
          properties :=
            [ { name := "a", type := "number", description := "First number" },
              { name := "b", type := "number", description := "Second number" } ]
          required := ["a", "b"] } },
    { name := "subtract"
      description := "Subtract two numbers (a - b)"
      inputSchema :=
        { type := "object"
          properties :=
            [ { name := "a", type := "number", description := "First number" },
              { name := "b", type := "number", description := "Number to subtract" } ]
          required := ["a", "b"] } },
    { name := "multiply"
      description := "Multiply two numbers (a × b)"
      inputSchema :=
        { type := "object"
          properties :=
            [ { name := "a", type := "number", description := "First number" },
              { name := "b", type := "number", description := "Second number" } ]
          required := ["a", "b"] } },
    { name := "divide"
      description := "Divide two numbers (a ÷ b)"
      inputSchema :=
        { type := "object"
          properties :=
            [ { name := "a", type := "number", description := "Dividend (number to divide)" },
              { name := "b", type := "number", description := "Divisor (number to divide by)" } ]
          required := ["a", "b"] } },
    { name := "power"
      description := "Calculate power of a number (base^exponent)"
      inputSchema :=
        { type := "object"
          properties :=
            [ { name := "base", type := "number", description := "Base number" },
              { name := "exponent", type := "number", description := "Exponent" } ]
          required := ["base", "exponent"] } },
    { name := "sqrt"
      description := "Calculate square root of a number"
      inputSchema :=
        { type := "object"
          properties :=
            [ { name := "number", type := "number",
                description := "Number to calculate square root of" } ]
          required := ["number"] } } ]

/-- Shallow embedding of the calculator `mcp_endpoint` (lines 289-430).
The four `X-User-*` headers are `none` when absent (FastAPI then applies the
declared defaults `anonymous` / `""` / `""` / `calculator:read`); `body` is
the parse outcome of the request body (`.error e` models any exception from
`request.json()` / pydantic validation, with `e` the Python `str(e)`).
`float(arguments.get(k, 0))` is modelled by a rational lookup defaulting
to `0`: this is the restriction of the full embedding `mcp_endpoint_json`
below to requests whose `arguments` are a dictionary of float-coercible
values (the only shape on which the source completes the handler). -/
def mcp_endpoint (env : NumEnv)
    (x_user_sub x_user_email x_user_roles x_user_scopes : Option String)
    (body : Except String (RpcRequest ℚ)) : HttpRpcResponse :=
  match body with
  | .error e =>
    ⟨400, { id := none, error := some ⟨-32700, "Parse error", e⟩ }⟩
  | .ok rpc_request =>
    let scopes := get_user_scopes (x_user_scopes.getD "calculator:read")
    if rpc_request.method = "tools/list" then
      ⟨200, { id := some rpc_request.id, result := some (.tools MCP_TOOLS) }⟩
    else if rpc_request.method = "tools/call" then
      let tool_name := rpc_request.params.name
      let arguments := rpc_request.params.arguments
      if !check_scope scopes "calculator:read" then
        ⟨200, { id := some rpc_request.id,
                error := some ⟨-32600, "Insufficient permissions",
                  "Required scope: calculator:read"⟩ }⟩
      else
        let argN : String → ℚ := fun k => (arguments.lookup k).getD 0
        let result? : Option String :=
          if tool_name = some "add" then
            some (calculate_add env (argN "a") (argN "b"))
          else if tool_name = some "subtract" then
            some (calculate_subtract env (argN "a") (argN "b"))
          else if tool_name = some "multiply" then
            some (calculate_multiply env (argN "a") (argN "b"))
          else if tool_name = some "divide" then
            some (calculate_divide env (argN "a") (argN "b"))
          else if tool_name = some "power" then
            some (calculate_power env (argN "base") (argN "exponent"))
          else if tool_name = some "sqrt" then
            some (calculate_sqrt env (argN "number"))
          else none
        match result? with
        | some text =>
          ⟨200, { id := some rpc_request.id,
                  result := some (.content text
                    ⟨x_user_sub.getD "anonymous", x_user_email.getD ""⟩) }⟩
        | none =>
          ⟨200, { id := some rpc_request.id,
                  error := some ⟨-32601, "Method not found",
                    "Unknown tool: " ++ pyOptStr tool_name⟩ }⟩
    else if rpc_request.method = "initialize" then
      ⟨200, { id := some rpc_request.id,
              result := some (.initialized "2024-11-05" "mcp-calculator-server" "1.0.0") }⟩
    else
      ⟨200, { id := some rpc_request.id,
              error := some ⟨-32601, "Method not found",
                "Unknown method: " ++ rpc_request.method⟩ }⟩

/-- A raw JSON argument value as consumed by `float(...)`: `num q` models
any value `float()` coerces (numbers, numeric strings, booleans);
`nonNumeric` models any value on which `float()` raises (`ValueError` /
`TypeError`), e.g. the string `"x"` or `null`. -/
inductive CalcArg where
  | num (q : ℚ)
  | nonNumeric
deriving DecidableEq

/-- Full embedding of the calculator `mcp_endpoint` (lines 289-430) over raw
JSON argument values, including the unhandled-exception path: pydantic
validates only the `JsonRpcRequest` shape, so a `tools/call` body can reach
the tool branches with a non-dict `arguments` (every `arguments.get` raises
`AttributeError`, line 349 via line 333) or with a non-float-coercible
argument value (`float(...)` raises `ValueError`, lines 349-374). These
exceptions are raised outside the `try`/`except` that guards body parsing,
so FastAPI surfaces them as HTTP 500 (`.serverError`), not as a JSON-RPC
envelope. The scope check and tool-name dispatch precede every
`arguments.get`, exactly as in the source. -/
def mcp_endpoint_json (env : NumEnv)
    (x_user_sub x_user_email x_user_roles x_user_scopes : Option String)
    (body : Except String (RpcRequestJson CalcArg)) : HttpOutcome :=
  match body with
  | .error e =>
    .rpc 400 { id := none, error := some ⟨-32700, "Parse error", e⟩ }
  | .ok rpc_request =>
    let scopes := get_user_scopes (x_user_scopes.getD "calculator:read")
    if rpc_request.method = "tools/list" then
      .rpc 200 { id := some rpc_request.id, result := some (.tools MCP_TOOLS) }
    else if rpc_request.method = "tools/call" then
      let tool_name := rpc_request.params.name
      let arguments := rpc_request.params.arguments
      if !check_scope scopes "calculator:read" then
        .rpc 200 { id := some rpc_request.id,
                   error := some ⟨-32600, "Insufficient permissions",
                     "Required scope: calculator:read"⟩ }
      else
        let argN : String → Option ℚ := fun k =>
          match arguments with
          | .other => none
          | .dict entries =>
            match (entries.lookup k).getD (.num 0) with
            | .num q => some q
            | .nonNumeric => none
        let result? : Except Unit (Option String) :=
          if tool_name = some "add" then
            match argN "a", argN "b" with
            | some a, some b => .ok (some (calculate_add env a b))
            | _, _ => .error ()
          else if tool_name = some "subtract" then
            match argN "a", argN "b" with
            | some a, some b => .ok (some (calculate_subtract env a b))
            | _, _ => .error ()
          else if tool_name = some "multiply" then
            match argN "a", argN "b" with
            | some a, some b => .ok (some (calculate_multiply env a b))
            | _, _ => .error ()
          else if tool_name = some "divide" then
            match argN "a", argN "b" with
            | some a, some b => .ok (some (calculate_divide env a b))
            | _, _ => .error ()
          else if tool_name = some "power" then
            match argN "base", argN "exponent" with
            | some base, some exponent => .ok (some (calculate_power env base exponent))
            | _, _ => .error ()
          else if tool_name = some "sqrt" then
            match argN "number" with
            | some number => .ok (some (calculate_sqrt env number))
            | none => .error ()
          else .ok none
        match result? with
        | .error _ => .serverError
        | .ok (some text) =>
          .rpc 200 { id := some rpc_request.id,
                     result := some (.content text
                       ⟨x_user_sub.getD "anonymous", x_user_email.getD ""⟩) }
        | .ok none =>
          .rpc 200 { id := some rpc_request.id,
                     error := some ⟨-32601, "Method not found",
                       "Unknown tool: " ++ pyOptStr tool_name⟩ }
    else if rpc_request.method = "initialize" then
      .rpc 200 { id := some rpc_request.id,
                 result := some (.initialized "2024-11-05" "mcp-calculator-server" "1.0.0") }
    else
      .rpc 200 { id := some rpc_request.id,
                 error := some ⟨-32601, "Method not found",
                   "Unknown method: " ++ rpc_request.method⟩ }

end Calculator

/-! ## Weather server (`weather_server.py`) -/

namespace Weather

/-- `get_user_scopes` (lines 50-54): split the header on single spaces
(Python `x_user_scopes.split(" ")`, modelled on the character lists), or the
demo default `["weather:read"]` when the header string is empty/falsy. -/
def get_user_scopes (x_user_scopes : String) : List String :=
  if x_user_scopes ≠ "" then (x_user_scopes.data.splitOn ' ').map List.asString
  else ["weather:read"]

/-- `check_scope` (lines 57-62): exact membership, with the enumerated alias
`weather-scope` accepted for `weather:read`. -/
def check_scope (scopes : List String) (required_scope : String) : Bool :=
  if required_scope = "weather:read" then
    scopes.contains "weather:read" || scopes.contains "weather-scope"
  else
    scopes.contains required_scope

/-- `get_mock_forecast` (lines 65-76); `now` models the
`%Y-%m-%d %H:%M:%S` timestamp. -/
def get_mock_forecast (now : String) (city country_code : String) : String :=
  "\n🌤️ Météo pour " ++ city ++ ", " ++ country_code ++
    "\n━━━━━━━━━━━━━━━━━━━━━━━━━━━━━━━━━━\n📊 Conditions: Partiellement nuageux\n🌡️ Température: 12°C\n🤔 Ressenti: 10°C\n💧 Humidité: 65%\n💨 Vent: 15 km/h\n📅 Mise à jour: " ++
    now ++ "\n"

/-- `get_weather_alerts` (lines 79-92); `nowDate` models the `%Y-%m-%d`
timestamp and `now` the full one. -/
def get_weather_alerts (nowDate now : String) (region : String) : String :=
  "\n⚠️ Alertes Météo pour " ++ region ++
    "\n━━━━━━━━━━━━━━━━━━━━━━━━━━━━━━━━━━\n🟡 Vigilance Jaune - Vent\n   Région: Normandie, Bretagne\n   Valide: " ++
    nowDate ++
    " 06:00 - 18:00\n   \n🟢 Aucune alerte majeure\n   Le reste du territoire est en vigilance verte.\n   \n📅 Dernière mise à jour: " ++
    now ++ "\n"

/-- `get_uv_index` (lines 95-104). -/
def get_uv_index (nowDate : String) (city country_code : String) : String :=
  "\n☀️ Indice UV pour " ++ city ++ ", " ++ country_code ++
    "\n━━━━━━━━━━━━━━━━━━━━━━━━━━━━━━━━━━\n📊 Indice UV: 5\n📈 Niveau: Modéré\n🛡️ Recommandation: Protection nécessaire: lunettes de soleil, crème solaire SPF 30+\n📅 Date: " ++
    nowDate ++ "\n"

/-- The module-level `MCP_TOOLS` registry (lines 111-164), in source order. -/
def MCP_TOOLS : List ToolDescriptor :=
  [ { name := "get_weather_forecast"
      description := "Get current weather forecast for a city"
      inputSchema :=
        { type := "object"
          properties :=
            [ { name := "city", type := "string",
                description := "Name of the city (e.g., Paris, Lyon, Marseille)" },
              { name := "country_code", type := "string",
                description := "ISO 3166-1 alpha-2 country code (default: FR)",
                default := some "FR" } ]
          required := ["city"] } },
    { name := "get_weather_alerts"
      description := "Get active weather alerts for a region"
      inputSchema :=
        { type := "object"
          properties :=
            [ { name := "region", type := "string",
                description := "Region or country name",
                default := some "France" } ] } },
    { name := "get_uv_index"
      description := "Get UV index for a city"
      inputSchema :=
        { type := "object"
          properties :=
            [ { name := "city", type := "string", description := "Name of the city" },
              { name := "country_code", type := "string",
                description := "ISO country code",
                default := some "FR" } ]
          required := ["city"] } } ]

/-- Shallow embedding of the weather `mcp_endpoint` (lines 193-319); same
conventions as the calculator embedding, with string-valued tool arguments
(`arguments.get(k, default)`). -/
def mcp_endpoint (nowDate now : String)
    (x_user_sub x_user_email x_user_roles x_user_scopes : Option String)
    (body : Except String (RpcRequest String)) : HttpRpcResponse :=
  match body with
  | .error e =>
    ⟨400, { id := none, error := some ⟨-32700, "Parse error", e⟩ }⟩
  | .ok rpc_request =>
    let scopes := get_user_scopes (x_user_scopes.getD "weather:read")
    if rpc_request.method = "tools/list" then
      ⟨200, { id := some rpc_request.id, result := some (.tools MCP_TOOLS) }⟩
    else if rpc_request.method = "tools/call" then
      let tool_name := rpc_request.params.name
      let arguments := rpc_request.params.arguments
      if !check_scope scopes "weather:read" then
        ⟨200, { id := some rpc_request.id,
                error := some ⟨-32600, "Insufficient permissions",
                  "Required scope: weather:read"⟩ }⟩
      else
        let argS : String → String → String := fun k d => (arguments.lookup k).getD d
        let result? : Option String :=
          if tool_name = some "get_weather_forecast" then
            some (get_mock_forecast now (argS "city" "Paris") (argS "country_code" "FR"))
          else if tool_name = some "get_weather_alerts" then
            some (get_weather_alerts nowDate now (argS "region" "France"))
          else if tool_name = some "get_uv_index" then
            some (get_uv_index nowDate (argS "city" "Paris") (argS "country_code" "FR"))
          else none
        match result? with
        | some text =>
          ⟨200, { id := some rpc_request.id,
                  result := some (.content text
                    ⟨x_user_sub.getD "anonymous", x_user_email.getD ""⟩) }⟩
        | none =>
          ⟨200, { id := some rpc_request.id,
                  error := some ⟨-32601, "Method not found",
                    "Unknown tool: " ++ pyOptStr tool_name⟩ }⟩
    else if rpc_request.method = "initialize" then
      ⟨200, { id := some rpc_request.id,
              result := some (.initialized "2024-11-05" "mcp-weather-server" "1.0.0") }⟩
    else
      ⟨200, { id := some rpc_request.id,
              error := some ⟨-32601, "Method not found",
                "Unknown method: " ++ rpc_request.method⟩ }⟩

/-- Full embedding of the weather `mcp_endpoint` (lines 193-319) over a raw
JSON `arguments` value, including the unhandled-exception path: a
`tools/call` body can reach the tool branches with a non-dict `arguments`
(e.g. `arguments: 5`), and every `arguments.get` then raises
`AttributeError` (line 253 via line 237), outside the `try`/`except` that
guards body parsing, so FastAPI surfaces it as HTTP 500 (`.serverError`).
The weather handlers interpolate argument values into f-strings, which
succeeds for any JSON value, so dictionary values are modelled by their
rendered strings and only the non-dict `arguments` shape crashes. The
scope check and tool-name dispatch precede every `arguments.get`, exactly
as in the source. -/
def mcp_endpoint_json (nowDate now : String)
    (x_user_sub x_user_email x_user_roles x_user_scopes : Option String)
    (body : Except String (RpcRequestJson String)) : HttpOutcome :=
  match body with
  | .error e =>
    .rpc 400 { id := none, error := some ⟨-32700, "Parse error", e⟩ }
  | .ok rpc_request =>
    let scopes := get_user_scopes (x_user_scopes.getD "weather:read")
    if rpc_request.method = "tools/list" then
      .rpc 200 { id := some rpc_request.id, result := some (.tools MCP_TOOLS) }
    else if rpc_request.method = "tools/call" then
      let tool_name := rpc_request.params.name
      let arguments := rpc_request.params.arguments
      if !check_scope scopes "weather:read" then
        .rpc 200 { id := some rpc_request.id,
                   error := some ⟨-32600, "Insufficient permissions",
                     "Required scope: weather:read"⟩ }
      else
        let result? : Except Unit (Option String) :=
          if tool_name = some "get_weather_forecast" then
            match arguments with
            | .dict entries =>
              .ok (some (get_mock_forecast now ((entries.lookup "city").getD "Paris")
                ((entries.lookup "country_code").getD "FR")))
            | .other => .error ()
          else if tool_name = some "get_weather_alerts" then
            match arguments with
            | .dict entries =>
              .ok (some (get_weather_alerts nowDate now
                ((entries.lookup "region").getD "France")))
            | .other => .error ()
          else if tool_name = some "get_uv_index" then
            match arguments with
            | .dict entries =>
              .ok (some (get_uv_index nowDate ((entries.lookup "city").getD "Paris")
                ((entries.lookup "country_code").getD "FR")))
            | .other => .error ()
          else .ok none
        match result? with
        | .error _ => .serverError
        | .ok (some text) =>
          .rpc 200 { id := some rpc_request.id,
                     result := some (.content text
                       ⟨x_user_sub.getD "anonymous", x_user_email.getD ""⟩) }
        | .ok none =>
          .rpc 200 { id := some rpc_request.id,
                     error := some ⟨-32601, "Method not found",
                       "Unknown tool: " ++ pyOptStr tool_name⟩ }
    else if rpc_request.method = "initialize" then
      .rpc 200 { id := some rpc_request.id,
                 result := some (.initialized "2024-11-05" "mcp-weather-server" "1.0.0") }
    else
      .rpc 200 { id := some rpc_request.id,
                 error := some ⟨-32601, "Method not found",
                   "Unknown method: " ++ rpc_request.method⟩ }

end Weather

end SmartGateway

/-! ## Helper lemmas -/

namespace SmartGateway

theorem startswith_bearer_append (t : String) :
    Auth.startswith ("Bearer " ++ t) "Bearer " = true := by
  simp [Auth.startswith]

theorem drop_bearer_append (t : String) : ("Bearer " ++ t).drop 7 = t := by
  apply String.ext
  rw [String.data_drop, String.data_append]
  exact List.drop_left' (by decide)

theorem wwwAuthHeader_contains_invalid_token (desc au du : String) :
    strContains (Auth.wwwAuthHeader desc au du) "error=\"invalid_token\"" := by
  have h1 : ("error=\"invalid_token\"" : String).data <:+:
      ("Bearer realm=\"mcp-gateway\", error=\"invalid_token\", error_description=\"" : String).data := by
    decide
  have h2 : (Auth.wwwAuthHeader desc au du).data =
      ("Bearer realm=\"mcp-gateway\", error=\"invalid_token\", error_description=\"" : String).data ++
        (desc.data ++ (("\", authorization_uri=\"" : String).data ++ (au.data ++
          (("\", discovery_uri=\"" : String).data ++ (du.data ++ ("\"" : String).data))))) := by
    simp [Auth.wwwAuthHeader, List.append_assoc]
  unfold strContains
  rw [h2]
  exact h1.trans (List.IsPrefix.isInfix ⟨_, rfl⟩)

theorem wwwAuthHeader_fixed_desc_ne (au du : String) :
    Auth.wwwAuthHeader "Token validation failed" au du ≠
      Auth.wwwAuthHeader "Bearer token required" au du := by
  intro h
  have h2 := congrArg String.data h
  simp only [Auth.wwwAuthHeader, String.data_append, List.append_assoc] at h2
  have h3 := List.append_cancel_left h2
  have h4 := congrArg List.head? h3
  simp at h4

/-! ## Claims about the auth service -/

/-- C1: for every `/verify` request whose bearer token is reported active by
introspection, the gateway returns HTTP 200 with `X-User-Sub` equal to the
introspection result's `sub` claim, `X-User-Email` equal to its `email`
claim, `X-User-Roles` equal to the comma-join of the nested realm role
claim, and `X-User-Scopes` equal to the `scope` claim verbatim. -/
theorem C1_active_token_identity_headers
    (cfg : Auth.GatewayConfig) (introspect : String → Except String Auth.TokenInfo)
    (hdr : String) (info : Auth.TokenInfo) (s e sc : String) (rs : List String)
    (hpre : Auth.startswith hdr "Bearer " = true)
    (hint : introspect (hdr.drop 7) = .ok info)
    (hact : info.active = some true)
    (hsub : info.sub = some s) (hem : info.email = some e)
    (hrl : info.realm_access = some ⟨some rs⟩) (hsc : info.scope = some sc) :
    (Auth.verify_token cfg introspect (some hdr)).status = 200 ∧
    (Auth.verify_token cfg introspect (some hdr)).xUserSub = some s ∧
    (Auth.verify_token cfg introspect (some hdr)).xUserEmail = some e ∧
    (Auth.verify_token cfg introspect (some hdr)).xUserRoles =
      some (String.intercalate "," rs) ∧
    (Auth.verify_token cfg introspect (some hdr)).xUserScopes = some sc := by
  simp [Auth.verify_token, hpre, hint, hact, hsub, hem, hrl, hsc]

theorem C1_active_token_identity_headers_witness :
    (Auth.verify_token ⟨"http://keycloak:8080", "mcp-gateway"⟩
        (fun _ => .ok ⟨some true, some "alice", some "alice@example.com",
          some ⟨some ["admin", "user"]⟩, some "openid profile"⟩)
        (some "Bearer tok123")).status = 200 ∧
    (Auth.verify_token ⟨"http://keycloak:8080", "mcp-gateway"⟩
        (fun _ => .ok ⟨some true, some "alice", some "alice@example.com",
          some ⟨some ["admin", "user"]⟩, some "openid profile"⟩)
        (some "Bearer tok123")).xUserSub = some "alice" ∧
    (Auth.verify_token ⟨"http://keycloak:8080", "mcp-gateway"⟩
        (fun _ => .ok ⟨some true, some "alice", some "alice@example.com",
          some ⟨some ["admin", "user"]⟩, some "openid profile"⟩)
        (some "Bearer tok123")).xUserEmail = some "alice@example.com" ∧
    (Auth.verify_token ⟨"http://keycloak:8080", "mcp-gateway"⟩
        (fun _ => .ok ⟨some true, some "alice", some "alice@example.com",
          some ⟨some ["admin", "user"]⟩, some "openid profile"⟩)
        (some "Bearer tok123")).xUserRoles = some (String.intercalate "," ["admin", "user"]) ∧
    (Auth.verify_token ⟨"http://keycloak:8080", "mcp-gateway"⟩
        (fun _ => .ok ⟨some true, some "alice", some "alice@example.com",
          some ⟨some ["admin", "user"]⟩, some "openid profile"⟩)
        (some "Bearer tok123")).xUserScopes = some "openid profile" :=
  C1_active_token_identity_headers ⟨"http://keycloak:8080", "mcp-gateway"⟩
    (fun _ => .ok ⟨some true, some "alice", some "alice@example.com",
      some ⟨some ["admin", "user"]⟩, some "openid profile"⟩)
    "Bearer tok123" ⟨some true, some "alice", some "alice@example.com",
      some ⟨some ["admin", "user"]⟩, some "openid profile"⟩
    "alice" "alice@example.com" "openid profile" ["admin", "user"]
    (by decide) rfl rfl rfl rfl rfl rfl

/-- C3: for every `/verify` request whose `Authorization` header is absent or
does not start with `"Bearer "`, the gateway returns HTTP 401 with a
`WWW-Authenticate` header containing `error="invalid_token"` and a JSON body
with `error: "unauthorized"`, an `error_description`, an
`authorization_uri` and a `discovery_uri`, without calling introspection. -/
theorem C3_missing_bearer_401
    (cfg : Auth.GatewayConfig) (introspect : String → Except String Auth.TokenInfo)
    (authHeader : Option String)
    (h : Auth.startswith (authHeader.getD "") "Bearer " = false) :
    (Auth.verify_token cfg introspect authHeader).status = 401 ∧
    (Auth.verify_token cfg introspect authHeader).wwwAuthenticate =
      some (Auth.wwwAuthHeader "Bearer token required" (Auth.auth_url cfg)
        (Auth.discovery_url cfg)) ∧
    strContains (Auth.wwwAuthHeader "Bearer token required" (Auth.auth_url cfg)
      (Auth.discovery_url cfg)) "error=\"invalid_token\"" ∧
    (Auth.verify_token cfg introspect authHeader).body =
      .unauthorized "Bearer token required" (Auth.auth_url cfg) (Auth.discovery_url cfg) ∧
    (Auth.verify_token cfg introspect authHeader).introspectedWith = none := by
  refine ⟨?_, ?_, wwwAuthHeader_contains_invalid_token _ _ _, ?_, ?_⟩ <;>
    simp [Auth.verify_token, h]

theorem C3_missing_bearer_401_witness :
    (Auth.verify_token ⟨"http://keycloak:8080", "mcp-gateway"⟩
        (fun _ => .error "unreached") none).status = 401 ∧
    (Auth.verify_token ⟨"http://keycloak:8080", "mcp-gateway"⟩
        (fun _ => .error "unreached") none).wwwAuthenticate =
      some (Auth.wwwAuthHeader "Bearer token required"
        (Auth.auth_url ⟨"http://keycloak:8080", "mcp-gateway"⟩)
        (Auth.discovery_url ⟨"http://keycloak:8080", "mcp-gateway"⟩)) ∧
    strContains (Auth.wwwAuthHeader "Bearer token required"
      (Auth.auth_url ⟨"http://keycloak:8080", "mcp-gateway"⟩)
      (Auth.discovery_url ⟨"http://keycloak:8080", "mcp-gateway"⟩))
      "error=\"invalid_token\"" ∧
    (Auth.verify_token ⟨"http://keycloak:8080", "mcp-gateway"⟩
        (fun _ => .error "unreached") none).body =
      .unauthorized "Bearer token required"
        (Auth.auth_url ⟨"http://keycloak:8080", "mcp-gateway"⟩)
        (Auth.discovery_url ⟨"http://keycloak:8080", "mcp-gateway"⟩) ∧
    (Auth.verify_token ⟨"http://keycloak:8080", "mcp-gateway"⟩
        (fun _ => .error "unreached") none).introspectedWith = none :=
  C3_missing_bearer_401 ⟨"http://keycloak:8080", "mcp-gateway"⟩
    (fun _ => .error "unreached") none (by decide)

/-- C4: for every token whose introspection result has the `active` flag
false or absent, `/verify` returns HTTP 401; and on every 401 response from
`/verify`, none of the four identity headers is set. -/
theorem C4_inactive_401_no_identity_headers :
    (∀ (cfg : Auth.GatewayConfig) (introspect : String → Except String Auth.TokenInfo)
        (hdr : String) (info : Auth.TokenInfo),
      Auth.startswith hdr "Bearer " = true →
      introspect (hdr.drop 7) = .ok info →
      (info.active = some false ∨ info.active = none) →
      (Auth.verify_token cfg introspect (some hdr)).status = 401) ∧
    (∀ (cfg : Auth.GatewayConfig) (introspect : String → Except String Auth.TokenInfo)
        (authHeader : Option String),
      (Auth.verify_token cfg introspect authHeader).status = 401 →
      (Auth.verify_token cfg introspect authHeader).xUserSub = none ∧
      (Auth.verify_token cfg introspect authHeader).xUserEmail = none ∧
      (Auth.verify_token cfg introspect authHeader).xUserRoles = none ∧
      (Auth.verify_token cfg introspect authHeader).xUserScopes = none) := by
  constructor
  · intro cfg introspect hdr info hpre hint hact
    rcases hact with h | h <;> simp [Auth.verify_token, hpre, hint, h]
  · intro cfg introspect authHeader
    simp only [Auth.verify_token]
    split
    · intro _; exact ⟨rfl, rfl, rfl, rfl⟩
    · split
      · intro _; exact ⟨rfl, rfl, rfl, rfl⟩
      · split
        · intro hst; simp at hst
        · intro _; exact ⟨rfl, rfl, rfl, rfl⟩

theorem C4_inactive_401_no_identity_headers_witness :
    (Auth.verify_token ⟨"http://keycloak:8080", "mcp-gateway"⟩
        (fun _ => .ok ⟨some false, none, none, none, none⟩)
        (some "Bearer expired")).status = 401 ∧
    (Auth.verify_token ⟨"http://keycloak:8080", "mcp-gateway"⟩
        (fun _ => .ok ⟨some false, none, none, none, none⟩)
        (some "Bearer expired")).xUserSub = none ∧
    (Auth.verify_token ⟨"http://keycloak:8080", "mcp-gateway"⟩
        (fun _ => .ok ⟨some false, none, none, none, none⟩)
        (some "Bearer expired")).xUserEmail = none ∧
    (Auth.verify_token ⟨"http://keycloak:8080", "mcp-gateway"⟩
        (fun _ => .ok ⟨some false, none, none, none, none⟩)
        (some "Bearer expired")).xUserRoles = none ∧
    (Auth.verify_token ⟨"http://keycloak:8080", "mcp-gateway"⟩
        (fun _ => .ok ⟨some false, none, none, none, none⟩)
        (some "Bearer expired")).xUserScopes = none := by
  have h1 := C4_inactive_401_no_identity_headers.1 ⟨"http://keycloak:8080", "mcp-gateway"⟩
    (fun _ => .ok ⟨some false, none, none, none, none⟩) "Bearer expired"
    ⟨some false, none, none, none, none⟩ (by decide) rfl (Or.inl rfl)
  have h2 := C4_inactive_401_no_identity_headers.2 ⟨"http://keycloak:8080", "mcp-gateway"⟩
    (fun _ => .ok ⟨some false, none, none, none, none⟩) (some "Bearer expired") h1
  exact ⟨h1, h2.1, h2.2.1, h2.2.2.1, h2.2.2.2⟩

end SmartGateway

namespace SmartGateway

set_option maxRecDepth 20000 in
/-- C5 counterexample: for a rejection caused by a concrete introspection
failure whose underlying description is `connection refused`, the
`WWW-Authenticate` header does not carry that description as its reason —
its `error_description` slot is the fixed literal `Token validation
failed`, so the claim that the header carries the underlying error
description is false. -/
theorem C5_counterexample_header_reason_is_fixed :
    (Auth.verify_token ⟨"http://keycloak:8080", "mcp-gateway"⟩
        (fun _ => .error "connection refused") (some "Bearer abc")).status = 401 ∧
    (Auth.verify_token ⟨"http://keycloak:8080", "mcp-gateway"⟩
        (fun _ => .error "connection refused") (some "Bearer abc")).wwwAuthenticate =
      some (Auth.wwwAuthHeader "Token validation failed"
        (Auth.auth_url ⟨"http://keycloak:8080", "mcp-gateway"⟩)
        (Auth.discovery_url ⟨"http://keycloak:8080", "mcp-gateway"⟩)) ∧
    ¬ strContains ((Auth.verify_token ⟨"http://keycloak:8080", "mcp-gateway"⟩
        (fun _ => .error "connection refused") (some "Bearer abc")).wwwAuthenticate.getD "")
      "connection refused" := by
  refine ⟨rfl, rfl, by decide⟩

/-- C5 (amended): every Rejected outcome of `/verify` carries a
`WWW-Authenticate` header of the form `Bearer realm="mcp-gateway",
error="invalid_token", error_description="<reason>", authorization_uri=...,
discovery_uri=...`, where the reason is a fixed literal — `Bearer token
required` on a missing bearer prefix and `Token validation failed` on every
introspection-path rejection; for a rejection caused by introspection
failure the underlying error description is carried in the JSON body's
`error_description`, not in the header. -/
theorem C5_reject_challenge_forms
    (cfg : Auth.GatewayConfig) (introspect : String → Except String Auth.TokenInfo)
    (authHeader : Option String) :
    ((Auth.verify_token cfg introspect authHeader).status = 401 →
      (Auth.verify_token cfg introspect authHeader).wwwAuthenticate =
        some (Auth.wwwAuthHeader "Bearer token required" (Auth.auth_url cfg)
          (Auth.discovery_url cfg)) ∨
      (Auth.verify_token cfg introspect authHeader).wwwAuthenticate =
        some (Auth.wwwAuthHeader "Token validation failed" (Auth.auth_url cfg)
          (Auth.discovery_url cfg))) ∧
    (∀ e, Auth.startswith (authHeader.getD "") "Bearer " = true →
      introspect ((authHeader.getD "").drop 7) = .error e →
      (Auth.verify_token cfg introspect authHeader).body =
        .unauthorized e (Auth.auth_url cfg) (Auth.discovery_url cfg) ∧
      (Auth.verify_token cfg introspect authHeader).wwwAuthenticate =
        some (Auth.wwwAuthHeader "Token validation failed" (Auth.auth_url cfg)
          (Auth.discovery_url cfg))) := by
  constructor
  · simp only [Auth.verify_token]
    split
    · intro _; left; rfl
    · split
      · intro _; right; rfl
      · split
        · intro hst; simp at hst
        · intro _; right; rfl
  · intro e hpre hint
    constructor <;> simp [Auth.verify_token, hpre, hint]

theorem C5_reject_challenge_forms_witness :
    ((Auth.verify_token ⟨"http://keycloak:8080", "mcp-gateway"⟩
        (fun _ => .error "connection refused") (some "Bearer abc")).wwwAuthenticate =
      some (Auth.wwwAuthHeader "Bearer token required"
        (Auth.auth_url ⟨"http://keycloak:8080", "mcp-gateway"⟩)
        (Auth.discovery_url ⟨"http://keycloak:8080", "mcp-gateway"⟩)) ∨
     (Auth.verify_token ⟨"http://keycloak:8080", "mcp-gateway"⟩
        (fun _ => .error "connection refused") (some "Bearer abc")).wwwAuthenticate =
      some (Auth.wwwAuthHeader "Token validation failed"
        (Auth.auth_url ⟨"http://keycloak:8080", "mcp-gateway"⟩)
        (Auth.discovery_url ⟨"http://keycloak:8080", "mcp-gateway"⟩))) ∧
    (Auth.verify_token ⟨"http://keycloak:8080", "mcp-gateway"⟩
        (fun _ => .error "connection refused") (some "Bearer abc")).body =
      .unauthorized "connection refused"
        (Auth.auth_url ⟨"http://keycloak:8080", "mcp-gateway"⟩)
        (Auth.discovery_url ⟨"http://keycloak:8080", "mcp-gateway"⟩) :=
  ⟨(C5_reject_challenge_forms ⟨"http://keycloak:8080", "mcp-gateway"⟩
      (fun _ => .error "connection refused") (some "Bearer abc")).1 rfl,
   ((C5_reject_challenge_forms ⟨"http://keycloak:8080", "mcp-gateway"⟩
      (fun _ => .error "connection refused") (some "Bearer abc")).2
      "connection refused" (by decide) rfl).1⟩

/-- C10: a request whose `Authorization` header is exactly `Bearer `
followed by any (possibly empty) token passes the step-1 prefix check; the
remainder — possibly the empty string — is sent to the Introspection
Client, and any 401 outcome carries the introspection-path challenge
(fixed header reason `Token validation failed`), which is distinct from the
`MissingBearerToken` challenge (`Bearer token required`). -/
theorem C10_bearer_prefix_always_introspects
    (cfg : Auth.GatewayConfig) (introspect : String → Except String Auth.TokenInfo)
    (t : String) :
    Auth.startswith ("Bearer " ++ t) "Bearer " = true ∧
    (Auth.verify_token cfg introspect (some ("Bearer " ++ t))).introspectedWith = some t ∧
    ((Auth.verify_token cfg introspect (some ("Bearer " ++ t))).status = 401 →
      (Auth.verify_token cfg introspect (some ("Bearer " ++ t))).wwwAuthenticate =
        some (Auth.wwwAuthHeader "Token validation failed" (Auth.auth_url cfg)
          (Auth.discovery_url cfg))) ∧
    Auth.wwwAuthHeader "Token validation failed" (Auth.auth_url cfg) (Auth.discovery_url cfg) ≠
      Auth.wwwAuthHeader "Bearer token required" (Auth.auth_url cfg) (Auth.discovery_url cfg) := by
  have hpre := startswith_bearer_append t
  have hdrop := drop_bearer_append t
  refine ⟨hpre, ?_, ?_, wwwAuthHeader_fixed_desc_ne _ _⟩
  · simp only [Auth.verify_token, Option.getD_some, hpre, hdrop]
    cases h : introspect t with
    | error e => simp [h]
    | ok info =>
      by_cases ha : info.active.getD false = true <;> simp [h, ha]
  · simp only [Auth.verify_token, Option.getD_some, hpre, hdrop]
    cases h : introspect t with
    | error e => simp [h]
    | ok info =>
      by_cases ha : info.active.getD false = true <;> simp [h, ha]

theorem C10_bearer_prefix_always_introspects_witness :
    Auth.startswith ("Bearer " ++ "") "Bearer " = true ∧
    (Auth.verify_token ⟨"http://keycloak:8080", "mcp-gateway"⟩
        (fun _ => .error "invalid token") (some ("Bearer " ++ ""))).introspectedWith = some "" ∧
    (Auth.verify_token ⟨"http://keycloak:8080", "mcp-gateway"⟩
        (fun _ => .error "invalid token") (some ("Bearer " ++ ""))).wwwAuthenticate =
      some (Auth.wwwAuthHeader "Token validation failed"
        (Auth.auth_url ⟨"http://keycloak:8080", "mcp-gateway"⟩)
        (Auth.discovery_url ⟨"http://keycloak:8080", "mcp-gateway"⟩)) ∧
    Auth.wwwAuthHeader "Token validation failed"
        (Auth.auth_url ⟨"http://keycloak:8080", "mcp-gateway"⟩)
        (Auth.discovery_url ⟨"http://keycloak:8080", "mcp-gateway"⟩) ≠
      Auth.wwwAuthHeader "Bearer token required"
        (Auth.auth_url ⟨"http://keycloak:8080", "mcp-gateway"⟩)
        (Auth.discovery_url ⟨"http://keycloak:8080", "mcp-gateway"⟩) :=
  ⟨(C10_bearer_prefix_always_introspects ⟨"http://keycloak:8080", "mcp-gateway"⟩
      (fun _ => .error "invalid token") "").1,
   (C10_bearer_prefix_always_introspects ⟨"http://keycloak:8080", "mcp-gateway"⟩
      (fun _ => .error "invalid token") "").2.1,
   (C10_bearer_prefix_always_introspects ⟨"http://keycloak:8080", "mcp-gateway"⟩
      (fun _ => .error "invalid token") "").2.2.1 (by decide),
   (C10_bearer_prefix_always_introspects ⟨"http://keycloak:8080", "mcp-gateway"⟩
      (fun _ => .error "invalid token") "").2.2.2⟩

end SmartGateway

namespace SmartGateway

/-- C2: on either resource server, the `tools/call` scope requirement is
satisfied iff the effective scope set (space-split header, or the per-server
default when absent) contains the exact required scope or an enumerated
alias (`calculator-scope`/`openid` for `calculator:read`; `weather-scope`
for `weather:read`), with no substring matching; when unsatisfied the
response is the JSON-RPC error `{code: -32600, message: "Insufficient
permissions", data: "Required scope: <scope>"}` regardless of whether the
requested tool name exists. -/
theorem C2_scope_check_exact_or_alias :
    (∀ scopes : List String,
      Calculator.check_scope scopes "calculator:read" = true ↔
        ("calculator:read" ∈ scopes ∨ "calculator-scope" ∈ scopes ∨ "openid" ∈ scopes)) ∧
    (∀ scopes : List String,
      Weather.check_scope scopes "weather:read" = true ↔
        ("weather:read" ∈ scopes ∨ "weather-scope" ∈ scopes)) ∧
    (∀ (env : Calculator.NumEnv) (s e r sc : Option String) (req : RpcRequest ℚ),
      req.method = "tools/call" →
      Calculator.check_scope (Calculator.get_user_scopes (sc.getD "calculator:read"))
        "calculator:read" = false →
      Calculator.mcp_endpoint env s e r sc (.ok req) =
        ⟨200, { id := some req.id,
                error := some ⟨-32600, "Insufficient permissions",
                  "Required scope: calculator:read"⟩ }⟩) ∧
    (∀ (nowDate now : String) (s e r sc : Option String) (req : RpcRequest String),
      req.method = "tools/call" →
      Weather.check_scope (Weather.get_user_scopes (sc.getD "weather:read"))
        "weather:read" = false →
      Weather.mcp_endpoint nowDate now s e r sc (.ok req) =
        ⟨200, { id := some req.id,
                error := some ⟨-32600, "Insufficient permissions",
                  "Required scope: weather:read"⟩ }⟩) := by
  refine ⟨?_, ?_, ?_, ?_⟩
  · intro scopes
    simp [Calculator.check_scope, or_assoc]
  · intro scopes
    simp [Weather.check_scope]
  · intro env s e r sc req hm hscope
    simp [Calculator.mcp_endpoint, hm, hscope]
  · intro nowDate now s e r sc req hm hscope
    simp [Weather.mcp_endpoint, hm, hscope]

theorem C2_scope_check_exact_or_alias_witness :
    (Calculator.check_scope ["openid"] "calculator:read" = true ↔
      ("calculator:read" ∈ (["openid"] : List String) ∨
        "calculator-scope" ∈ (["openid"] : List String) ∨
        "openid" ∈ (["openid"] : List String))) ∧
    Calculator.mcp_endpoint ⟨fun _ => "0", fun _ _ => 0, fun _ => 0, "ts"⟩
        none none none (some "weather:read")
        (.ok { id := .num 7, method := "tools/call",
               params := { name := some "no_such_tool" } }) =
      ⟨200, { id := some (.num 7),
              error := some ⟨-32600, "Insufficient permissions",
                "Required scope: calculator:read"⟩ }⟩ ∧
    Weather.mcp_endpoint "d" "t" none none none (some "calculator:read")
        (.ok { id := .num 8, method := "tools/call",
               params := { name := some "get_uv_index" } }) =
      ⟨200, { id := some (.num 8),
              error := some ⟨-32600, "Insufficient permissions",
                "Required scope: weather:read"⟩ }⟩ :=
  ⟨C2_scope_check_exact_or_alias.1 ["openid"],
   C2_scope_check_exact_or_alias.2.2.1 ⟨fun _ => "0", fun _ _ => 0, fun _ => 0, "ts"⟩
     none none none (some "weather:read")
     { id := .num 7, method := "tools/call", params := { name := some "no_such_tool" } }
     rfl (by decide),
   C2_scope_check_exact_or_alias.2.2.2 "d" "t" none none none (some "calculator:read")
     { id := .num 8, method := "tools/call", params := { name := some "get_uv_index" } }
     rfl (by decide)⟩

/-- C6 counterexample: a body that parses into the RpcRequest shape —
`tools/call` of the valid tool `add` under the default scope, with the
non-float-coercible argument value modelled by `CalcArg.nonNumeric` (e.g.
`arguments: {"a": "x"}`) — produces the unhandled-exception outcome, HTTP
500, on the calculator server; a non-dict `arguments` (e.g. `arguments: 5`)
does the same on the weather server. So a parse failure is not the only
outcome with a non-200 HTTP status, refuting the claim as stated. -/
theorem C6_counterexample_unhandled_exception_500 :
    Calculator.mcp_endpoint_json ⟨fun _ => "0", fun _ _ => 0, fun _ => 0, "ts"⟩
        none none none none
        (.ok { id := .num 1, method := "tools/call",
               params := { name := some "add",
                           arguments := .dict [("a", Calculator.CalcArg.nonNumeric)] } }) =
      .serverError ∧
    (Calculator.mcp_endpoint_json ⟨fun _ => "0", fun _ _ => 0, fun _ => 0, "ts"⟩
        none none none none
        (.ok { id := .num 1, method := "tools/call",
               params := { name := some "add",
                           arguments := .dict [("a", Calculator.CalcArg.nonNumeric)] } })).status =
      500 ∧
    Weather.mcp_endpoint_json "d" "t" none none none none
        (.ok { id := .num 2, method := "tools/call",
               params := { name := some "get_uv_index",
                           arguments := ArgsJson.other } }) = .serverError := by
  refine ⟨by decide, by decide, by decide⟩

set_option maxHeartbeats 1600000 in
/-- C6 (amended): on either resource server, a request body that cannot be
parsed as JSON into the RpcRequest shape yields HTTP 400 with error
`{code: -32700, message: "Parse error", data: <description>}` and `id`
null; this is the only JSON-RPC envelope returned with a non-200 HTTP
status — every envelope produced from a parsed body (including all
JSON-RPC-level errors) is returned with HTTP 200 — but a `tools/call` that
reaches argument access with malformed arguments (a non-float-coercible
value on the calculator, or a non-dict `arguments` on either server)
raises an unhandled exception surfaced as HTTP 500 without an envelope,
and such an exception can arise only from a `tools/call` dispatch. -/
theorem C6_parse_400_envelopes_otherwise_200_or_500 :
    ((∀ (env : Calculator.NumEnv) (s e r sc : Option String) (msg : String),
      Calculator.mcp_endpoint_json env s e r sc (.error msg) =
        .rpc 400 { id := none, error := some ⟨-32700, "Parse error", msg⟩ }) ∧
     (∀ (env : Calculator.NumEnv) (s e r sc : Option String)
        (req : RpcRequestJson Calculator.CalcArg) (st : Nat) (resp : RpcResponse),
      Calculator.mcp_endpoint_json env s e r sc (.ok req) = .rpc st resp → st = 200) ∧
     (∀ (env : Calculator.NumEnv) (s e r sc : Option String)
        (req : RpcRequestJson Calculator.CalcArg),
      Calculator.mcp_endpoint_json env s e r sc (.ok req) = .serverError →
      req.method = "tools/call")) ∧
    ((∀ (nowDate now : String) (s e r sc : Option String) (msg : String),
      Weather.mcp_endpoint_json nowDate now s e r sc (.error msg) =
        .rpc 400 { id := none, error := some ⟨-32700, "Parse error", msg⟩ }) ∧
     (∀ (nowDate now : String) (s e r sc : Option String)
        (req : RpcRequestJson String) (st : Nat) (resp : RpcResponse),
      Weather.mcp_endpoint_json nowDate now s e r sc (.ok req) = .rpc st resp → st = 200) ∧
     (∀ (nowDate now : String) (s e r sc : Option String) (req : RpcRequestJson String),
      Weather.mcp_endpoint_json nowDate now s e r sc (.ok req) = .serverError →
      req.method = "tools/call")) := by
  refine ⟨⟨fun env s e r sc msg => rfl, ?_, ?_⟩, fun nowDate now s e r sc msg => rfl, ?_, ?_⟩
  · intro env s e r sc req st resp h
    simp only [Calculator.mcp_endpoint_json] at h
    repeat' split at h
    all_goals first
      | (injection h with h1 h2; exact h1.symm)
      | simp at h
  · intro env s e r sc req h
    simp only [Calculator.mcp_endpoint_json] at h
    repeat' split at h
    all_goals first
      | assumption
      | simp at h
  · intro nowDate now s e r sc req st resp h
    simp only [Weather.mcp_endpoint_json] at h
    repeat' split at h
    all_goals first
      | (injection h with h1 h2; exact h1.symm)
      | simp at h
  · intro nowDate now s e r sc req h
    simp only [Weather.mcp_endpoint_json] at h
    repeat' split at h
    all_goals first
      | assumption
      | simp at h

theorem C6_parse_400_envelopes_otherwise_200_or_500_witness :
    Calculator.mcp_endpoint_json ⟨fun _ => "0", fun _ _ => 0, fun _ => 0, "ts"⟩
        none none none none (.error "Expecting value: line 1 column 1 (char 0)") =
      .rpc 400 { id := none,
                 error := some ⟨-32700, "Parse error",
                   "Expecting value: line 1 column 1 (char 0)"⟩ } ∧
    (200 : Nat) = 200 ∧
    ("tools/call" : String) = "tools/call" ∧
    Weather.mcp_endpoint_json "d" "t" none none none none (.error "bad json") =
      .rpc 400 { id := none, error := some ⟨-32700, "Parse error", "bad json"⟩ } :=
  ⟨C6_parse_400_envelopes_otherwise_200_or_500.1.1
     ⟨fun _ => "0", fun _ _ => 0, fun _ => 0, "ts"⟩ none none none none
     "Expecting value: line 1 column 1 (char 0)",
   C6_parse_400_envelopes_otherwise_200_or_500.1.2.1
     ⟨fun _ => "0", fun _ _ => 0, fun _ => 0, "ts"⟩ none none none none
     { id := .num 9, method := "tools/list" } 200
     { id := some (.num 9), result := some (.tools Calculator.MCP_TOOLS) } rfl,
   C6_parse_400_envelopes_otherwise_200_or_500.2.2.2 "d" "t" none none none none
     { id := .num 2, method := "tools/call",
       params := { name := some "get_weather_alerts", arguments := ArgsJson.other } }
     (by decide),
   C6_parse_400_envelopes_otherwise_200_or_500.2.1 "d" "t" none none none none
     "bad json"⟩

/-- C8: on either resource server, exactly one of `result`/`error` is
populated in the response envelope, and the response `id` equals the
request's `id` in every case except parse failure, where it is null. -/
theorem C8_exactly_one_of_result_error :
    (∀ (env : Calculator.NumEnv) (s e r sc : Option String)
        (body : Except String (RpcRequest ℚ)),
      ((Calculator.mcp_endpoint env s e r sc body).response.result.isSome = true ↔
        (Calculator.mcp_endpoint env s e r sc body).response.error = none) ∧
      (∀ req, body = Except.ok req →
        (Calculator.mcp_endpoint env s e r sc body).response.id = some req.id) ∧
      (∀ msg, body = Except.error msg →
        (Calculator.mcp_endpoint env s e r sc body).response.id = none)) ∧
    (∀ (nowDate now : String) (s e r sc : Option String)
        (body : Except String (RpcRequest String)),
      ((Weather.mcp_endpoint nowDate now s e r sc body).response.result.isSome = true ↔
        (Weather.mcp_endpoint nowDate now s e r sc body).response.error = none) ∧
      (∀ req, body = Except.ok req →
        (Weather.mcp_endpoint nowDate now s e r sc body).response.id = some req.id) ∧
      (∀ msg, body = Except.error msg →
        (Weather.mcp_endpoint nowDate now s e r sc body).response.id = none)) := by
  constructor
  · intro env s e r sc body
    refine ⟨?_, ?_, ?_⟩
    · cases body with
      | error msg => simp [Calculator.mcp_endpoint]
      | ok req =>
        simp only [Calculator.mcp_endpoint]
        repeat' split
        all_goals simp
    · intro req hb
      subst hb
      simp only [Calculator.mcp_endpoint]
      repeat' split
      all_goals rfl
    · intro msg hb
      subst hb
      rfl
  · intro nowDate now s e r sc body
    refine ⟨?_, ?_, ?_⟩
    · cases body with
      | error msg => simp [Weather.mcp_endpoint]
      | ok req =>
        simp only [Weather.mcp_endpoint]
        repeat' split
        all_goals simp
    · intro req hb
      subst hb
      simp only [Weather.mcp_endpoint]
      repeat' split
      all_goals rfl
    · intro msg hb
      subst hb
      rfl

theorem C8_exactly_one_of_result_error_witness :
    ((Calculator.mcp_endpoint ⟨fun _ => "0", fun _ _ => 0, fun _ => 0, "ts"⟩
        none none none none
        (.ok { id := .num 1, method := "tools/list" })).response.result.isSome = true ↔
      (Calculator.mcp_endpoint ⟨fun _ => "0", fun _ _ => 0, fun _ => 0, "ts"⟩
        none none none none
        (.ok { id := .num 1, method := "tools/list" })).response.error = none) ∧
    (Calculator.mcp_endpoint ⟨fun _ => "0", fun _ _ => 0, fun _ => 0, "ts"⟩
        none none none none
        (.ok { id := .num 1, method := "tools/list" })).response.id = some (.num 1) ∧
    (Weather.mcp_endpoint "d" "t" none none none none
        (.error "Expecting value: line 1 column 1 (char 0)")).response.id = none :=
  ⟨(C8_exactly_one_of_result_error.1 ⟨fun _ => "0", fun _ _ => 0, fun _ => 0, "ts"⟩
      none none none none (.ok { id := .num 1, method := "tools/list" })).1,
   (C8_exactly_one_of_result_error.1 ⟨fun _ => "0", fun _ _ => 0, fun _ => 0, "ts"⟩
      none none none none (.ok { id := .num 1, method := "tools/list" })).2.1
     { id := .num 1, method := "tools/list" } rfl,
   (C8_exactly_one_of_result_error.2 "d" "t" none none none none
      (.error "Expecting value: line 1 column 1 (char 0)")).2.2
     "Expecting value: line 1 column 1 (char 0)" rfl⟩

end SmartGateway

namespace SmartGateway

/-- C9: on either resource server, a `tools/list` request returns the full
tool registry listing in registration order, with no scope check: the
response is identical for any two calls whatever the identity headers and
environment, and its result is the `MCP_TOOLS` registry verbatim. -/
theorem C9_tools_list_stable_registration_order :
    (∀ (env₁ env₂ : Calculator.NumEnv) (s₁ e₁ r₁ sc₁ s₂ e₂ r₂ sc₂ : Option String)
        (req : RpcRequest ℚ),
      req.method = "tools/list" →
      Calculator.mcp_endpoint env₁ s₁ e₁ r₁ sc₁ (.ok req) =
          Calculator.mcp_endpoint env₂ s₂ e₂ r₂ sc₂ (.ok req) ∧
        Calculator.mcp_endpoint env₁ s₁ e₁ r₁ sc₁ (.ok req) =
          ⟨200, { id := some req.id, result := some (.tools Calculator.MCP_TOOLS) }⟩) ∧
    (∀ (d₁ t₁ d₂ t₂ : String) (s₁ e₁ r₁ sc₁ s₂ e₂ r₂ sc₂ : Option String)
        (req : RpcRequest String),
      req.method = "tools/list" →
      Weather.mcp_endpoint d₁ t₁ s₁ e₁ r₁ sc₁ (.ok req) =
          Weather.mcp_endpoint d₂ t₂ s₂ e₂ r₂ sc₂ (.ok req) ∧
        Weather.mcp_endpoint d₁ t₁ s₁ e₁ r₁ sc₁ (.ok req) =
          ⟨200, { id := some req.id, result := some (.tools Weather.MCP_TOOLS) }⟩) := by
  constructor
  · intro env₁ env₂ s₁ e₁ r₁ sc₁ s₂ e₂ r₂ sc₂ req hm
    constructor <;> simp [Calculator.mcp_endpoint, hm]
  · intro d₁ t₁ d₂ t₂ s₁ e₁ r₁ sc₁ s₂ e₂ r₂ sc₂ req hm
    constructor <;> simp [Weather.mcp_endpoint, hm]

theorem C9_tools_list_stable_registration_order_witness :
    (Calculator.mcp_endpoint ⟨fun _ => "0", fun _ _ => 0, fun _ => 0, "ts1"⟩
        (some "alice") none none (some "no-scope-at-all")
        (.ok { id := .num 5, method := "tools/list" }) =
      Calculator.mcp_endpoint ⟨fun _ => "x", fun _ _ => 1, fun _ => 1, "ts2"⟩
        none none none none
        (.ok { id := .num 5, method := "tools/list" })) ∧
    Calculator.mcp_endpoint ⟨fun _ => "0", fun _ _ => 0, fun _ => 0, "ts1"⟩
        (some "alice") none none (some "no-scope-at-all")
        (.ok { id := .num 5, method := "tools/list" }) =
      ⟨200, { id := some (.num 5), result := some (.tools Calculator.MCP_TOOLS) }⟩ :=
  C9_tools_list_stable_registration_order.1
    ⟨fun _ => "0", fun _ _ => 0, fun _ => 0, "ts1"⟩
    ⟨fun _ => "x", fun _ _ => 1, fun _ => 1, "ts2"⟩
    (some "alice") none none (some "no-scope-at-all") none none none none
    { id := .num 5, method := "tools/list" } rfl

end SmartGateway

namespace SmartGateway

theorem lookup_map_snd {β : Type} (f : ℚ → β) (entries : List (String × ℚ)) (k : String) :
    (entries.map (fun p => (p.1, f p.2))).lookup k = (entries.lookup k).map f := by
  induction entries with
  | nil => rfl
  | cons p t ih =>
    cases p with
    | mk a b =>
      simp only [List.map_cons, List.lookup]
      by_cases hk : (k == a) = true
      · simp [hk]
      · simp [hk, ih]

/-- The typed calculator embedding is the restriction of the full one: on a
request whose `arguments` are a dictionary of float-coercible values, the
full embedding produces exactly the typed embedding's envelope with its
status (in particular, never `.serverError`). -/
theorem calculator_json_restricts_to_typed
    (env : Calculator.NumEnv) (s e r sc : Option String) (req : RpcRequest ℚ) :
    Calculator.mcp_endpoint_json env s e r sc
        (.ok { jsonrpc := req.jsonrpc, id := req.id, method := req.method,
               params := { name := req.params.name,
                           arguments := .dict (req.params.arguments.map
                             (fun p => (p.1, Calculator.CalcArg.num p.2))) } }) =
      .rpc (Calculator.mcp_endpoint env s e r sc (.ok req)).status
        (Calculator.mcp_endpoint env s e r sc (.ok req)).response := by
  have harg : ∀ k : String,
      ((req.params.arguments.map (fun p => (p.1, Calculator.CalcArg.num p.2))).lookup k).getD
        (Calculator.CalcArg.num 0) =
        Calculator.CalcArg.num ((req.params.arguments.lookup k).getD 0) := by
    intro k
    rw [lookup_map_snd]
    cases req.params.arguments.lookup k <;> rfl
  simp only [Calculator.mcp_endpoint_json, Calculator.mcp_endpoint]
  by_cases hm1 : req.method = "tools/list"
  · simp [hm1]
  · by_cases hm2 : req.method = "tools/call"
    · by_cases hsc : Calculator.check_scope
          (Calculator.get_user_scopes (sc.getD "calculator:read")) "calculator:read" = true
      · by_cases hn1 : req.params.name = some "add"
        · simp [hm1, hm2, hsc, hn1, harg]
        · by_cases hn2 : req.params.name = some "subtract"
          · simp [hm1, hm2, hsc, hn1, hn2, harg]
          · by_cases hn3 : req.params.name = some "multiply"
            · simp [hm1, hm2, hsc, hn1, hn2, hn3, harg]
            · by_cases hn4 : req.params.name = some "divide"
              · simp [hm1, hm2, hsc, hn1, hn2, hn3, hn4, harg]
              · by_cases hn5 : req.params.name = some "power"
                · simp [hm1, hm2, hsc, hn1, hn2, hn3, hn4, hn5, harg]
                · by_cases hn6 : req.params.name = some "sqrt"
                  · simp [hm1, hm2, hsc, hn1, hn2, hn3, hn4, hn5, hn6, harg]
                  · simp [hm1, hm2, hsc, hn1, hn2, hn3, hn4, hn5, hn6]
      · simp [hm1, hm2, hsc]
    · by_cases hm3 : req.method = "initialize"
      · simp [hm1, hm2, hm3]
      · simp [hm1, hm2, hm3]

/-- The typed weather embedding is the restriction of the full one: on a
request whose `arguments` are a dictionary, the full embedding produces
exactly the typed embedding's envelope with its status (in particular,
never `.serverError`). -/
theorem weather_json_restricts_to_typed
    (nowDate now : String) (s e r sc : Option String) (req : RpcRequest String) :
    Weather.mcp_endpoint_json nowDate now s e r sc
        (.ok { jsonrpc := req.jsonrpc, id := req.id, method := req.method,
               params := { name := req.params.name,
                           arguments := .dict req.params.arguments } }) =
      .rpc (Weather.mcp_endpoint nowDate now s e r sc (.ok req)).status
        (Weather.mcp_endpoint nowDate now s e r sc (.ok req)).response := by
  simp only [Weather.mcp_endpoint_json, Weather.mcp_endpoint]
  by_cases hm1 : req.method = "tools/list"
  · simp [hm1]
  · by_cases hm2 : req.method = "tools/call"
    · by_cases hsc : Weather.check_scope
          (Weather.get_user_scopes (sc.getD "weather:read")) "weather:read" = true
      · by_cases hn1 : req.params.name = some "get_weather_forecast"
        · simp [hm1, hm2, hsc, hn1]
        · by_cases hn2 : req.params.name = some "get_weather_alerts"
          · simp [hm1, hm2, hsc, hn1, hn2]
          · by_cases hn3 : req.params.name = some "get_uv_index"
            · simp [hm1, hm2, hsc, hn1, hn2, hn3]
            · simp [hm1, hm2, hsc, hn1, hn2, hn3]
      · simp [hm1, hm2, hsc]
    · by_cases hm3 : req.method = "initialize"
      · simp [hm1, hm2, hm3]
      · simp [hm1, hm2, hm3]

end SmartGateway
